import Mathlib

/-!
Verification of the camhack attention-monitor core against its specification.

Python strings are modelled as `List Char`; Python `None` as `Option`.
The embedding covers:
* `src/anki_addon/tabs/work_filter.py` (`_host`, `_host_in`, `_any_kw`, `classify`)
* `src/anki_addon/window_monitor/__init__.py` (`WindowMonitor._classify_window`,
  `WindowMonitor._check_window_change`)
* `src/anki_addon/vision/eye_monitor.py` (`EyeMonitor.on_eyes_state_change`,
  the reading-buffer logic of `_run_vision_model`, `start`, `stop`)
-/

/-- Characters of a string literal, the `List Char` model of a Python `str`. -/
def chars (s : String) : List Char := s.data

/-- Python `str.lower()` (inputs here are ASCII, where `Char.toLower` agrees). -/
def pyLower (s : List Char) : List Char := s.map Char.toLower

/-- Python `str.strip()`: remove whitespace from both ends. -/
def pyStrip (s : List Char) : List Char :=
  ((s.dropWhile Char.isWhitespace).reverse.dropWhile Char.isWhitespace).reverse

/-- Python `k in h` on strings: `k` occurs as a contiguous substring of `h`. -/
def isSub (k : List Char) : List Char → Bool
  | [] => k.isEmpty
  | c :: rest => k.isPrefixOf (c :: rest) || isSub k rest

/-- Python truthiness of an `Optional[str]`: not `None` and not empty. -/
def truthyStr (o : Option (List Char)) : Bool :=
  match o with
  | none => false
  | some l => !l.isEmpty

/-! ## work_filter.py: static domain and keyword tables -/

def WHITELIST_DOMAINS : List (List Char) :=
  [chars "khanacademy.org", chars "coursera.org", chars "edx.org", chars "udemy.com",
   chars "ocw.mit.edu", chars "mit.edu", chars "brilliant.org",
   chars "wolframalpha.com", chars "wikipedia.org", chars "arxiv.org", chars "gutenberg.org",
   chars "notion.so", chars "obsidian.md", chars "onenote.com", chars "office.com",
   chars "docs.google.com", chars "drive.google.com", chars "sheets.google.com",
   chars "ankiweb.net", chars "quizlet.com", chars "pomofocus.io", chars "forestapp.cc",
   chars "leetcode.com", chars "hackerrank.com", chars "codeforces.com",
   chars "geeksforgeeks.org", chars "w3schools.com", chars "developer.mozilla.org",
   chars "stackoverflow.com"]

def BLACKLIST_DOMAINS : List (List Char) :=
  [chars "reddit.com", chars "tiktok.com", chars "instagram.com", chars "x.com",
   chars "twitter.com",
   chars "netflix.com", chars "disneyplus.com", chars "hulu.com", chars "twitch.tv",
   chars "pinterest.com", chars "tumblr.com",
   chars "cnn.com", chars "bbc.com", chars "nytimes.com", chars "theguardian.com"]

def SEARCH_ENGINE_DOMAINS : List (List Char) :=
  [chars "google.com", chars "bing.com", chars "duckduckgo.com", chars "ddg.gg",
   chars "search.yahoo.com", chars "yandex.com"]

def WORK_TITLE_KEYWORDS : List (List Char) :=
  [chars "documentation", chars "docs", chars "api", chars "mdn", chars "w3schools",
   chars "leetcode", chars "hackerrank", chars "codeforces",
   chars "tutorial", chars "course", chars "lecture", chars "assignment",
   chars "problem set", chars "problem-set", chars "arxiv", chars "paper",
   chars "notion", chars "obsidian", chars "onenote", chars "google docs",
   chars "google sheets", chars "drive",
   chars "quizlet", chars "anki", chars "pomofocus", chars "forest",
   chars "wolfram", chars "khan academy", chars "ocw", chars "brilliant", chars "edx",
   chars "coursera", chars "udemy",
   chars "error", chars "exception", chars "stack overflow", chars "stackoverflow"]

def NONWORK_TITLE_KEYWORDS : List (List Char) :=
  [chars "highlights", chars "trailer", chars "vlog", chars "prank", chars "meme",
   chars "asmr", chars "music video",
   chars "live stream", chars "livestream", chars "shorts", chars "reaction",
   chars "tier list",
   chars "tiktok", chars "instagram", chars "reddit", chars "try not to", chars "funny",
   chars "movie clip", chars "behind the scenes", chars "bts", chars "gaming",
   chars "let's play", chars "lets play"]

/-! ## work_filter.py: helpers -/

/-- Characters permitted in a URL scheme (`urllib.parse.scheme_chars`). -/
def validSchemeChar (c : Char) : Bool :=
  c.isAlpha || c.isDigit || c == '+' || c == '-' || c == '.'

/-- Model of the scheme-splitting step of `urllib.parse.urlsplit`: if the text
before the first `:` is a well-formed scheme (nonempty, starts with a letter,
scheme characters only), drop it together with the colon. -/
def splitScheme (url : List Char) : List Char :=
  match url.span (fun c => c ≠ ':') with
  | (pre, ':' :: rest) =>
      if !pre.isEmpty && (pre.headD ' ').isAlpha && pre.all validSchemeChar then rest
      else url
  | _ => url

/-- Model of `urllib.parse.urlparse(url).netloc`: after removing the scheme,
a netloc is present only after a leading `//` and extends to the next
`/`, `?` or `#`. -/
def netlocOf (url : List Char) : List Char :=
  match splitScheme url with
  | '/' :: '/' :: rest => rest.takeWhile (fun c => c ≠ '/' && c ≠ '?' && c ≠ '#')
  | _ => []

/-- `work_filter._host`: empty for a falsy URL, otherwise the lowercased netloc
with one leading `www.` stripped. -/
def hostOf (url : Option (List Char)) : List Char :=
  match url with
  | none => []
  | some u =>
      if u.isEmpty then []
      else
        let h := pyLower (netlocOf u)
        if (chars "www.").isPrefixOf h then h.drop 4 else h

/-- `work_filter._host_in`: host equals a listed domain or ends with `"." + domain`. -/
def hostIn (host : List Char) (domset : List (List Char)) : Bool :=
  domset.any (fun d => host == d || ('.' :: d).isSuffixOf host)

/-- `work_filter._any_kw`: some keyword is a substring of the lowercased text. -/
def anyKw (s : List Char) (kws : List (List Char)) : Bool :=
  kws.any (fun k => isSub k (pyLower s))

/-- The classifier's result values `"whitelist" | "blacklist" | "unclassified"`. -/
inductive Label where
  | whitelist
  | blacklist
  | unclassified
deriving DecidableEq, Repr

/-- The YouTube test on line 89 of work_filter.py:
`host == "youtube.com" or host.endswith(".youtube.com")`. -/
def isYoutubeHost (h : List Char) : Bool :=
  h == chars "youtube.com" || (chars ".youtube.com").isSuffixOf h

/-- `work_filter.classify(url, title)`, rule for rule. -/
def classify (url : Option (List Char)) (title : Option (List Char)) : Label :=
  let host := hostOf url
  let t := pyStrip (title.getD [])
  -- (1) Whitelist domains
  if !host.isEmpty && hostIn host WHITELIST_DOMAINS then .whitelist
  -- (2) YouTube special case
  else if !host.isEmpty && isYoutubeHost host then
    if anyKw t WORK_TITLE_KEYWORDS then .whitelist
    else if anyKw t NONWORK_TITLE_KEYWORDS then .blacklist
    else .blacklist
  -- (3) Pure blacklist domains
  else if !host.isEmpty && hostIn host BLACKLIST_DOMAINS then .blacklist
  -- (4) Search engines: classify by title, else unclassified
  else if !host.isEmpty && hostIn host SEARCH_ENGINE_DOMAINS then
    if anyKw t WORK_TITLE_KEYWORDS then .whitelist
    else if anyKw t NONWORK_TITLE_KEYWORDS then .blacklist
    else .unclassified
  -- (5) No decisive domain: title keywords globally
  else if !t.isEmpty && anyKw t WORK_TITLE_KEYWORDS then .whitelist
  else if !t.isEmpty && anyKw t NONWORK_TITLE_KEYWORDS then .blacklist
  -- (6) Default
  else .unclassified

/-! ## window_monitor/__init__.py -/

/-- `WindowState`: classification state of a window. -/
inductive WindowState where
  | WHITELISTED
  | BLACKLISTED
  | UNCLASSIFIED
deriving DecidableEq, Repr

/-- The mapping from `classify`'s label to a `WindowState` used at lines
126-131 and 254-259 of window_monitor/__init__.py (`unclassified` keeps the
surrounding default). -/
def mapLabel (l : Label) : WindowState :=
  match l with
  | .whitelist => .WHITELISTED
  | .blacklist => .BLACKLISTED
  | .unclassified => .UNCLASSIFIED

/-- `WindowMonitor.WHITELIST`: window-title keywords. -/
def WM_WHITELIST : List (List Char) :=
  [chars "anki", chars "microsoft teams", chars "outlook", chars "visual studio code",
   chars "google chrome", chars "comet", chars "add", chars "firefox",
   chars "file explorer", chars "task view", chars "task switching", chars "search"]

/-- `WindowMonitor.BLACKLIST`: window-title keywords. -/
def WM_BLACKLIST : List (List Char) :=
  [chars "discord", chars "whatsapp", chars "doom", chars "signal", chars "telegram",
   chars "steam", chars "valorant", chars "twitch", chars "epic games", chars "fortnite",
   chars "genshin impact", chars "apex legends", chars "league of legends", chars "roblox",
   chars "minecraft", chars "call of duty", chars "overwatch", chars "csgo"]

/-- A window snapshot as returned by `get_active_window_info` (the keys the
monitor reads; all assumed present, as the code accesses them unguarded). -/
structure WinInfo where
  handle : Nat
  title : List Char
  className : List Char
  processName : List Char
deriving DecidableEq, Repr

/-- A `get_active_tab()` outcome: `none` models the call raising; otherwise
the `(title, url)` pair, each possibly `None`. -/
abbrev TabRes := Option (Option (List Char) × Option (List Char))

/-- `WindowMonitor._classify_window(window_info)`; `tabRes` is the outcome of
its internal `get_active_tab()` call. -/
def classifyWindow (win : Option WinInfo) (tabRes : TabRes) : WindowState :=
  match win with
  | none => .UNCLASSIFIED
  | some w =>
    if pyLower w.processName == chars "python.exe"
        || pyLower w.processName == chars "pythonw.exe" then .WHITELISTED
    else
      let legacy :=
        let title := pyLower w.title
        if WM_BLACKLIST.any (fun kw => isSub kw title) then WindowState.BLACKLISTED
        else if WM_WHITELIST.any (fun kw => isSub kw title) then WindowState.WHITELISTED
        else WindowState.UNCLASSIFIED
      match tabRes with
      | none => legacy  -- tab detection raised: fall through to legacy heuristics
      | some (tabTitle, tabUrl) =>
        if truthyStr tabTitle || truthyStr tabUrl then
          match classify tabUrl tabTitle with
          | .whitelist => .WHITELISTED
          | .blacklist => .BLACKLISTED
          | .unclassified => legacy  -- unclassified falls through to legacy heuristics
        else legacy

/-- Electron process names excluded from browser detection (line 224). -/
def electronApps : List (List Char) :=
  [chars "code.exe", chars "discord.exe", chars "slack.exe", chars "teams.exe",
   chars "spotify.exe"]

/-- Browser process names for the `Chrome_WidgetWin_1` window class (line 229). -/
def chromiumBrowserProcs : List (List Char) :=
  [chars "chrome.exe", chars "msedge.exe", chars "brave.exe"]

/-- The `is_browser` computation of `_check_window_change` (lines 218-231) for a
present window (`is_browser` stays `False` when the snapshot is absent). -/
def isBrowserW (w : WinInfo) : Bool :=
  let cn := pyStrip w.className
  let pn := pyLower w.processName
  let isElectron := electronApps.any (fun a => pn == a)
  ((cn == chars "Chrome_WidgetWin_1" && chromiumBrowserProcs.any (fun a => pn == a))
    || pn == chars "firefox.exe") && !isElectron

/-- `WindowMonitor` mutable state (after `start()` has set the initial values;
`timerRunning` models whether the poll timer is active). -/
structure WMState where
  prevState : WindowState
  prevHandle : Option Nat
  prevTab : Option (List Char) × Option (List Char)
  timerRunning : Bool
deriving DecidableEq, Repr

/-- Payload of `_notify_subscribers(prev_state, curr_state, curr_title)`. -/
structure WMEvent where
  prev : WindowState
  curr : WindowState
  title : List Char
deriving DecidableEq, Repr

/-- Result of one `_check_window_change` tick: the new state, the published
events, whether an exception was raised and swallowed by the tick's outer
`except` handler, and the value assigned to the local `current_state` (if the
tick reached a classification). -/
structure TickOut where
  state : WMState
  events : List WMEvent
  caught : Bool
  computed : Option WindowState
deriving DecidableEq, Repr

/-- Browser branch of `_check_window_change` (lines 233-276). The
`except`-guarded fallback around `classify_tab` is unreachable because
`classify` is a pure total function, so it is not modelled. -/
def browserTick (s : WMState) (w : WinInfo) (tabRes : TabRes) : TickOut :=
  let currHandle := some w.handle
  let windowChanged := currHandle != s.prevHandle
  let currentTab := tabRes.getD (none, none)
  let tabChanged := currentTab != s.prevTab
  if windowChanged || tabChanged then
    let tabTitle := currentTab.1
    let tabUrl := currentTab.2
    let currentState :=
      if truthyStr tabTitle || truthyStr tabUrl then mapLabel (classify tabUrl tabTitle)
      else classifyWindow (some w) tabRes
    if currentState != s.prevState then
      { state := { prevState := currentState, prevHandle := currHandle,
                   prevTab := currentTab, timerRunning := s.timerRunning },
        events := [⟨s.prevState, currentState, w.title⟩],
        caught := false, computed := some currentState }
    else
      { state := { s with prevHandle := currHandle, prevTab := currentTab },
        events := [], caught := false, computed := some currentState }
  else
    { state := s, events := [], caught := false, computed := none }

/-- Non-browser branch of `_check_window_change` (lines 277-290). When the
snapshot is absent but the handle comparison fires, the log f-string evaluates
`current_window.get('title', '')` on `None`: the resulting `AttributeError` is
caught by the tick's outer `except`, so no notification happens and no state
is updated. -/
def nonBrowserTick (s : WMState) (win : Option WinInfo) (tabRes : TabRes) : TickOut :=
  let currHandle := win.map WinInfo.handle
  if currHandle != s.prevHandle then
    let currentState := classifyWindow win tabRes
    match win with
    | none =>
        { state := s, events := [], caught := true, computed := some currentState }
    | some w =>
      if currentState != s.prevState then
        { state := { prevState := currentState, prevHandle := currHandle,
                     prevTab := (none, none), timerRunning := s.timerRunning },
          events := [⟨s.prevState, currentState, w.title⟩],
          caught := false, computed := some currentState }
      else
        { state := { s with prevHandle := currHandle, prevTab := (none, none) },
          events := [], caught := false, computed := some currentState }
  else
    { state := s, events := [], caught := false, computed := none }

/-- One `_check_window_change` tick. Inputs: the `get_active_window_info()`
snapshot (`none` = provider returned nothing) and the `get_active_tab()`
outcome used by any tab query during this tick. -/
def checkWindowChange (s : WMState) (win : Option WinInfo) (tabRes : TabRes) : TickOut :=
  match win with
  | some w => if isBrowserW w then browserTick s w tabRes else nonBrowserTick s (some w) tabRes
  | none => nonBrowserTick s none tabRes

/-! ## vision/eye_monitor.py -/

/-- State of the sustained-duration layer (`EyeMonitor.on_eyes_state_change`):
`_eyes_closed_start_time` and `_current_state`. Times are rationals. -/
structure DurState where
  closedStart : Option ℚ
  currentState : Bool
deriving DecidableEq, Repr

/-- `EyeMonitor.on_eyes_state_change(eyes_closed)` called at time `t`
(the code reads `time.time()`); the returned list holds the arguments of the
`_notify_subscribers` calls it makes (`true` = eyes closed too long). -/
def onEyesStateChange (thr : ℚ) (s : DurState) (t : ℚ) (eyesClosed : Bool) :
    DurState × List Bool :=
  if eyesClosed then
    match s.closedStart with
    | none => ({ s with closedStart := some t }, [])
    | some t0 =>
        if thr ≤ t - t0 then
          if s.currentState then (s, [])
          else ({ s with currentState := true }, [true])
        else (s, [])
  else
    if s.currentState then ({ closedStart := none, currentState := false }, [false])
    else ({ s with closedStart := none }, [])

/-- Fold a step function over an input stream, concatenating emitted events. -/
def runSteps {σ ι ε : Type _} (step : σ → ι → σ × List ε) : σ → List ι → σ × List ε
  | s, [] => (s, [])
  | s, i :: is =>
      let out := step s i
      let rest := runSteps step out.1 is
      (rest.1, out.2 ++ rest.2)

/-- Feed a stream of timed samples to `on_eyes_state_change`. -/
def runDur (thr : ℚ) (s : DurState) (samples : List (ℚ × Bool)) : DurState × List Bool :=
  runSteps (fun s p => onEyesStateChange thr s p.1 p.2) s samples

/-- `deque(maxlen=5)` append: evict the oldest reading when capacity is hit. -/
def pushBuf (buf : List Bool) (b : Bool) : List Bool :=
  let l := buf ++ [b]
  if 5 < l.length then l.tail else l

/-- State of the majority-of-5 layer of `_run_vision_model`:
`_reading_buffer` (oldest first) and `_last_emitted_state`. -/
structure BufState where
  buffer : List Bool
  lastEmitted : Option Bool
deriving DecidableEq, Repr

/-- One parsed reading through lines 130-148 of `_run_vision_model`, taken in
isolation: the emitted list holds the argument of the `on_eyes_state_change`
call (`true` = eyes closed), i.e. the debounced transition this layer emits. -/
def bufStep (s : BufState) (b : Bool) : BufState × List Bool :=
  let buf := pushBuf s.buffer b
  if buf.length == 5 then
    if buf.all (fun r => !r) then
      if s.lastEmitted != some false then
        ({ buffer := buf, lastEmitted := some false }, [true])
      else ({ s with buffer := buf }, [])
    else if buf.all id then
      if s.lastEmitted != some true then
        ({ buffer := buf, lastEmitted := some true }, [false])
      else ({ s with buffer := buf }, [])
    else ({ s with buffer := buf }, [])
  else ({ s with buffer := buf }, [])

/-- Feed a stream of parsed readings to the majority-of-5 layer. -/
def runBuf (s : BufState) (samples : List Bool) : BufState × List Bool :=
  runSteps bufStep s samples

/-- The unanimity verdict of a full buffer: `some false` = all readings false
(eyes closed), `some true` = all true (eyes open), `none` = mixed or not full.
This is the value `_last_emitted_state` would take. -/
def verdictOf (buf : List Bool) : Option Bool :=
  if buf.length == 5 then
    if buf.all (fun r => !r) then some false
    else if buf.all id then some true
    else none
  else none

/-- Full `EyeMonitor` mutable state. `proc` is the `_vision_process` handle
(opaque). -/
structure EMState where
  isMonitoring : Bool
  closedStart : Option ℚ
  currentState : Bool
  buffer : List Bool
  lastEmitted : Option Bool
  proc : Option Unit
deriving DecidableEq, Repr

/-- `EyeMonitor.__init__`: initial state. -/
def initEM : EMState :=
  { isMonitoring := false, closedStart := none, currentState := false,
    buffer := [], lastEmitted := none, proc := none }

/-- One parsed reading through the `_run_vision_model` loop of a full monitor:
the buffer layer runs, and on a unanimity-verdict change it invokes
`on_eyes_state_change` at the sample's time; the emitted list holds the
subscriber notifications (`_notify_subscribers` arguments). -/
def emIngest (thr : ℚ) (s : EMState) (inp : ℚ × Bool) : EMState × List Bool :=
  let buf := pushBuf s.buffer inp.2
  if buf.length == 5 then
    if buf.all (fun r => !r) then
      if s.lastEmitted != some false then
        let dout := onEyesStateChange thr ⟨s.closedStart, s.currentState⟩ inp.1 true
        ({ s with buffer := buf, lastEmitted := some false,
                  closedStart := dout.1.closedStart, currentState := dout.1.currentState },
         dout.2)
      else ({ s with buffer := buf }, [])
    else if buf.all id then
      if s.lastEmitted != some true then
        let dout := onEyesStateChange thr ⟨s.closedStart, s.currentState⟩ inp.1 false
        ({ s with buffer := buf, lastEmitted := some true,
                  closedStart := dout.1.closedStart, currentState := dout.1.currentState },
         dout.2)
      else ({ s with buffer := buf }, [])
    else ({ s with buffer := buf }, [])
  else ({ s with buffer := buf }, [])

/-- Feed a stream of timed parsed readings to a full monitor. -/
def runEM (thr : ℚ) (s : EMState) (samples : List (ℚ × Bool)) : EMState × List Bool :=
  runSteps (emIngest thr) s samples

/-- `EyeMonitor.start()`: sets `_is_monitoring` and spawns the worker; on a
successful spawn `_vision_process` is assigned inside the reader thread, on a
failed spawn it keeps its previous value (the `Popen` assignment never runs). -/
def emStart (s : EMState) (spawnOk : Bool) : EMState :=
  { s with isMonitoring := true, proc := if spawnOk then some () else s.proc }

/-- Process-teardown actions `stop()` can issue. -/
inductive ProcAction where
  | terminate
  | wait (timeout : ℚ)
  | kill
deriving DecidableEq, Repr

/-- Exceptions `stop()` can let escape. -/
inductive PyErr where
  | timeoutExpired
deriving DecidableEq, Repr

/-- `EyeMonitor.stop()`. `exitsInTime` says whether the worker exits within
`wait`'s 2-second timeout. Statements before the `wait` call always run; if
`wait` raises `TimeoutExpired` the exception propagates to the caller and the
remaining statements (handle release, buffer clear, `_last_emitted_state`
reset) are skipped. -/
def emStop (s : EMState) (exitsInTime : Bool) : EMState × Option PyErr :=
  let s1 := { s with isMonitoring := false, closedStart := none }
  match s1.proc with
  | none => ({ s1 with buffer := [], lastEmitted := none }, none)
  | some _ =>
    if exitsInTime then ({ s1 with proc := none, buffer := [], lastEmitted := none }, none)
    else (s1, some .timeoutExpired)

/-- The process-teardown actions `stop()` issues: `terminate` then a bounded
`wait` when a process handle exists; it never issues `kill`. -/
def stopProcActions (s : EMState) : List ProcAction :=
  match s.proc with
  | none => []
  | some _ => [.terminate, .wait 2]

/-- What one tick on a present window snapshot does: nothing is caught, and
either no classification happened (no recompute, state untouched) or a label
was computed, the stored label now equals it, and exactly the expected
notification was published. -/
def TickSpec (s : WMState) (w : WinInfo) (o : TickOut) : Prop :=
  o.caught = false ∧
  (o.computed = none ∧ o.events = [] ∧ o.state = s
   ∨ ∃ L, o.computed = some L ∧ o.state.prevState = L ∧
       o.state.timerRunning = s.timerRunning ∧
       ((L = s.prevState ∧ o.events = []) ∨
        (L ≠ s.prevState ∧ o.events = [⟨s.prevState, L, w.title⟩])))

/-- Invariant of the composite pipeline: `_current_state` never becomes true,
and whenever the sustained-closure timer is armed the buffer-level emitted
state is CLOSED. It holds initially and is preserved by every ingested
reading, because `_run_vision_model` calls `on_eyes_state_change` only on
verdict changes, and every CLOSED-verdict call finds the timer disarmed. -/
def EMInv (s : EMState) : Prop :=
  s.currentState = false ∧ (s.closedStart = none ∨ s.lastEmitted = some false)


/-! ## Helper lemmas -/

lemma runSteps_append {σ ι ε : Type _} (step : σ → ι → σ × List ε) (s : σ)
    (l₁ l₂ : List ι) :
    runSteps step s (l₁ ++ l₂) =
      ((runSteps step (runSteps step s l₁).1 l₂).1,
       (runSteps step s l₁).2 ++ (runSteps step (runSteps step s l₁).1 l₂).2) := by
  induction l₁ generalizing s with
  | nil => simp [runSteps]
  | cons i is ih => simp [runSteps, ih, List.append_assoc]


lemma runDur_cons (thr : ℚ) (s : DurState) (t : ℚ) (b : Bool) (l : List (ℚ × Bool)) :
    runDur thr s ((t, b) :: l) =
      ((runDur thr (onEyesStateChange thr s t b).1 l).1,
       (onEyesStateChange thr s t b).2 ++ (runDur thr (onEyesStateChange thr s t b).1 l).2) :=
  rfl

lemma runDur_nil (thr : ℚ) (s : DurState) : runDur thr s [] = (s, []) := rfl

/-- A closed sample after the CLOSED notification has fired changes nothing. -/
lemma onEyes_closed_sat (thr t₀ t : ℚ) :
    onEyesStateChange thr ⟨some t₀, true⟩ t true = (⟨some t₀, true⟩, []) := by
  simp [onEyesStateChange]

/-- Once the CLOSED notification has fired, further closed samples are silent. -/
lemma runDur_closed_sat (thr t₀ : ℚ) (ts : List ℚ) :
    runDur thr ⟨some t₀, true⟩ (ts.map (fun t => (t, true))) = (⟨some t₀, true⟩, []) := by
  induction ts with
  | nil => rfl
  | cons t ts ih => rw [List.map_cons, runDur_cons, onEyes_closed_sat]; simp [ih]

/-- Behaviour of the sustained-duration layer on an all-closed run started at
`t₀`: the timer origin never moves, and the single CLOSED notification fires
exactly when some later sample time crosses the threshold. -/
lemma runDur_closed (thr t₀ : ℚ) (ts : List ℚ) :
    runDur thr ⟨some t₀, false⟩ (ts.map (fun t => (t, true))) =
      (⟨some t₀, ts.any (fun t => decide (thr ≤ t - t₀))⟩,
       if ts.any (fun t => decide (thr ≤ t - t₀)) then [true] else []) := by
  induction ts with
  | nil => simp [runDur, runSteps]
  | cons t ts ih =>
      rw [List.map_cons, runDur_cons]
      by_cases hc : thr ≤ t - t₀
      · have hstep : onEyesStateChange thr ⟨some t₀, false⟩ t true =
            (⟨some t₀, true⟩, [true]) := by simp [onEyesStateChange, hc]
        rw [hstep]
        simp [runDur_closed_sat, List.any_cons, hc]
      · have hstep : onEyesStateChange thr ⟨some t₀, false⟩ t true =
            (⟨some t₀, false⟩, []) := by simp [onEyesStateChange, hc]
        rw [hstep]
        simp [ih, List.any_cons, hc]

lemma runDur_append (thr : ℚ) (s : DurState) (l₁ l₂ : List (ℚ × Bool)) :
    runDur thr s (l₁ ++ l₂) =
      ((runDur thr (runDur thr s l₁).1 l₂).1,
       (runDur thr s l₁).2 ++ (runDur thr (runDur thr s l₁).1 l₂).2) :=
  runSteps_append _ s l₁ l₂

lemma onEyes_first_closed (thr t : ℚ) (c : Bool) :
    onEyesStateChange thr ⟨none, c⟩ t true = (⟨some t, c⟩, []) := by
  simp [onEyesStateChange]

lemma onEyes_open_quiet (thr t : ℚ) (cs : Option ℚ) :
    onEyesStateChange thr ⟨cs, false⟩ t false = (⟨none, false⟩, []) := by
  simp [onEyesStateChange]

/-- C1. Sustained-duration debounce of `EyeMonitor.on_eyes_state_change`, fed
one timed sample per call: (1) CLOSED samples all strictly inside the
threshold window followed by one OPEN sample produce no notification at all;
(2) a continuously CLOSED stream with some sample past the threshold produces
exactly one CLOSED notification, not one per sample; (3) any OPEN sample
resets the sustained-closure timer immediately. -/
theorem C1_sustained_duration_debounce (thr t₀ topen : ℚ) (rest : List ℚ)
    (hshort : ∀ t ∈ rest, t - t₀ < thr) :
    (runDur thr ⟨none, false⟩
        (((t₀ :: rest).map (fun t => (t, true))) ++ [(topen, false)])).2 = [] ∧
    (∀ rest₂ : List ℚ, (∃ t ∈ rest₂, thr ≤ t - t₀) →
        (runDur thr ⟨none, false⟩ ((t₀ :: rest₂).map (fun t => (t, true)))).2 = [true]) ∧
    (∀ s : DurState, ∀ t : ℚ, ((onEyesStateChange thr s t false).1).closedStart = none) := by
  have hany : rest.any (fun t => decide (thr ≤ t - t₀)) = false := by
    rw [List.any_eq_false]
    intro t ht
    simp only [decide_eq_true_eq, not_le]
    exact hshort t ht
  refine ⟨?_, ?_, ?_⟩
  · rw [List.map_cons, List.cons_append, runDur_cons, onEyes_first_closed, runDur_append,
      runDur_closed, hany]
    simp [onEyes_open_quiet, runDur_cons, runDur_nil]
  · rintro rest₂ ⟨t, ht, hcross⟩
    have hany₂ : rest₂.any (fun t => decide (thr ≤ t - t₀)) = true :=
      List.any_eq_true.mpr ⟨t, ht, by simpa using hcross⟩
    rw [List.map_cons, runDur_cons, onEyes_first_closed, runDur_closed, hany₂]
    simp
  · intro s t
    cases hcs : s.currentState <;> simp [onEyesStateChange, hcs]

/-- Witness for C1 at threshold 2: closing at times 0 and 1 then opening at 3
notifies nothing; closing at times 0 and 2 notifies CLOSED exactly once. -/
theorem C1_sustained_duration_debounce_witness :
    (runDur 2 ⟨none, false⟩ [(0, true), (1, true), (3, false)]).2 = [] ∧
    (runDur 2 ⟨none, false⟩ [(0, true), (2, true)]).2 = [true] := by
  have h := C1_sustained_duration_debounce 2 0 3 [1] (by
    intro t ht
    simp only [List.mem_singleton] at ht
    subst ht
    simp [one_lt_two])
  exact ⟨h.1, h.2.1 [2] ⟨2, by simp, by simp⟩⟩

lemma runBuf_append (s : BufState) (l₁ l₂ : List Bool) :
    runBuf s (l₁ ++ l₂) =
      ((runBuf (runBuf s l₁).1 l₂).1, (runBuf s l₁).2 ++ (runBuf (runBuf s l₁).1 l₂).2) :=
  runSteps_append _ s l₁ l₂

/-- After the CLOSED verdict has been emitted, further false readings keep the
saturated all-false buffer and emit nothing. -/
lemma bufStep_sat_false :
    bufStep ⟨List.replicate 5 false, some false⟩ false =
      (⟨List.replicate 5 false, some false⟩, []) := by decide

/-- Feeding `k ≥ 5` consecutive false readings to a fresh buffer emits the
CLOSED transition exactly once and saturates the buffer. -/
lemma runBuf_replicate_false (k : ℕ) (h5 : 5 ≤ k) :
    runBuf ⟨[], none⟩ (List.replicate k false) =
      (⟨List.replicate 5 false, some false⟩, [true]) := by
  induction k with
  | zero => omega
  | succ k ih =>
      rcases Nat.lt_or_ge k 5 with hk | hk
      · have hk4 : k = 4 := by omega
        subst hk4
        decide
      · rw [List.replicate_succ', runBuf_append, ih hk]
        simp only [runBuf, runSteps]
        decide

/-- C2. Majority-of-5 debounce of `_run_vision_model`: a push that leaves the
buffer mixed emits no transition and keeps the emitted state; five (or more)
consecutive false readings from a fresh buffer emit exactly one CLOSED
transition; one to four subsequent true readings do not flip the emitted
state, which flips (one OPEN transition) only once the buffer is unanimously
true. -/
theorem C2_majority_of_five_debounce :
    (∀ (s : BufState) (b : Bool),
        (∃ x ∈ pushBuf s.buffer b, x = true) → (∃ x ∈ pushBuf s.buffer b, x = false) →
        (bufStep s b).2 = [] ∧ (bufStep s b).1.lastEmitted = s.lastEmitted) ∧
    (runBuf ⟨[], none⟩ [true, true, true, true, false]).2 = [] ∧
    (∀ k : ℕ, 5 ≤ k → (runBuf ⟨[], none⟩ (List.replicate k false)).2 = [true]) ∧
    (∀ k : ℕ, 5 ≤ k →
        (runBuf ⟨[], none⟩ (List.replicate k false ++ [true])).2 = [true] ∧
        (runBuf ⟨[], none⟩ (List.replicate k false ++ [true])).1.lastEmitted = some false ∧
        (∀ j : ℕ, j ≤ 4 →
          (runBuf ⟨[], none⟩ (List.replicate k false ++ List.replicate j true)).2 = [true]) ∧
        (runBuf ⟨[], none⟩ (List.replicate k false ++ List.replicate 5 true)).2
          = [true, false]) := by
  refine ⟨?_, by decide, ?_, ?_⟩
  · intro s b hex1 hex0
    obtain ⟨x1, hx1, rfl⟩ := hex1
    obtain ⟨x0, hx0, rfl⟩ := hex0
    have hallf : (pushBuf s.buffer b).all (fun r => !r) = false :=
      List.all_eq_false.mpr ⟨true, hx1, by simp⟩
    have hallt : (pushBuf s.buffer b).all id = false :=
      List.all_eq_false.mpr ⟨false, hx0, by simp⟩
    by_cases hlen : (pushBuf s.buffer b).length == 5 <;>
      simp [bufStep, hlen, hallf, hallt]
  · intro k hk
    rw [runBuf_replicate_false k hk]
  · intro k hk
    refine ⟨?_, ?_, ?_, ?_⟩
    · rw [runBuf_append, runBuf_replicate_false k hk]; decide
    · rw [runBuf_append, runBuf_replicate_false k hk]; decide
    · intro j hj
      interval_cases j <;>
        · rw [runBuf_append, runBuf_replicate_false k hk]; decide
    · rw [runBuf_append, runBuf_replicate_false k hk]; decide

/-- Witness for C2: the concrete buffer `[true,true,true,true]` pushed `false`
emits nothing; five false readings emit one CLOSED transition; a sixth,
true, reading does not flip it. -/
theorem C2_majority_of_five_debounce_witness :
    (bufStep ⟨[true, true, true, true], some true⟩ false).2 = [] ∧
    (runBuf ⟨[], none⟩ (List.replicate 5 false)).2 = [true] ∧
    (runBuf ⟨[], none⟩ (List.replicate 5 false ++ [true])).2 = [true] := by
  have h := C2_majority_of_five_debounce
  exact ⟨(h.1 ⟨[true, true, true, true], some true⟩ false
            ⟨true, by decide, rfl⟩ ⟨false, by decide, rfl⟩).1,
         h.2.2.1 5 (by decide), (h.2.2.2 5 (by decide)).1⟩

lemma runEM_cons (thr : ℚ) (s : EMState) (i : ℚ × Bool) (l : List (ℚ × Bool)) :
    runEM thr s (i :: l) =
      ((runEM thr (emIngest thr s i).1 l).1,
       (emIngest thr s i).2 ++ (runEM thr (emIngest thr s i).1 l).2) :=
  rfl

lemma initEM_inv : EMInv initEM := ⟨rfl, Or.inl rfl⟩

lemma emStart_inv (s : EMState) (spawnOk : Bool) (h : EMInv s) : EMInv (emStart s spawnOk) := h


lemma emIngest_inv (thr : ℚ) (s : EMState) (inp : ℚ × Bool) (h : EMInv s) :
    EMInv (emIngest thr s inp).1 := by
  obtain ⟨hcur, hcs⟩ := h
  unfold emIngest
  dsimp only
  split_ifs with h5 hf hne ht hne2
  · -- CLOSED verdict fires: the timer is necessarily disarmed, so it only arms
    have hne' : s.lastEmitted ≠ some false := by simpa using hne
    have hcs0 : s.closedStart = none := hcs.resolve_right hne'
    rw [hcur, hcs0, onEyes_first_closed]
    exact ⟨rfl, Or.inr rfl⟩
  · exact ⟨hcur, hcs⟩
  · -- OPEN verdict fires: the timer resets and the state stays OPEN
    rw [hcur, onEyes_open_quiet]
    exact ⟨rfl, Or.inl rfl⟩
  · exact ⟨hcur, hcs⟩
  · exact ⟨hcur, hcs⟩
  · exact ⟨hcur, hcs⟩

lemma runEM_inv (thr : ℚ) (s : EMState) (samples : List (ℚ × Bool)) (h : EMInv s) :
    EMInv (runEM thr s samples).1 := by
  induction samples generalizing s with
  | nil => exact h
  | cons i l ih => rw [runEM_cons]; exact ih _ (emIngest_inv thr s i h)

/-- `stop()` with no process handle: full reset, nothing raised. -/
lemma emStop_proc_none (s : EMState) (e : Bool) (hp : s.proc = none) :
    emStop s e = ({ s with isMonitoring := false, closedStart := none,
                           buffer := [], lastEmitted := none }, none) := by
  unfold emStop
  dsimp only
  rw [hp]

/-- `stop()` with a process that exits within the wait timeout: full reset,
handle released, nothing raised. -/
lemma emStop_proc_some_true (s : EMState) (hp : s.proc = some ()) :
    emStop s true = ({ s with isMonitoring := false, closedStart := none, proc := none,
                              buffer := [], lastEmitted := none }, none) := by
  unfold emStop
  dsimp only
  rw [hp]
  rfl

/-- `stop()` with a process that does not exit in time: `wait` raises
`TimeoutExpired`, skipping handle release and the buffer/emitted-state reset. -/
lemma emStop_proc_some_false (s : EMState) (hp : s.proc = some ()) :
    emStop s false = ({ s with isMonitoring := false, closedStart := none },
                      some .timeoutExpired) := by
  unfold emStop
  dsimp only
  rw [hp]
  rfl

/-- C3. Reset contract: whenever `stop()` returns normally after any history of
ingested samples on a started monitor, the buffer is empty, the buffer-level
emitted state is cleared, the whole state equals the freshly-constructed one,
and a restarted monitor behaves identically to a freshly constructed started
monitor on any further history. (`stop()` does not reset `_current_state`,
but `_current_state` is invariantly false along the composite pipeline, so
the contract holds.) -/
theorem C3_reset_contract (thr : ℚ) (spawnOk : Bool) (hist : List (ℚ × Bool)) (e : Bool)
    (hret : (emStop (runEM thr (emStart initEM spawnOk) hist).1 e).2 = none) :
    (emStop (runEM thr (emStart initEM spawnOk) hist).1 e).1.buffer = [] ∧
    (emStop (runEM thr (emStart initEM spawnOk) hist).1 e).1.lastEmitted = none ∧
    (emStop (runEM thr (emStart initEM spawnOk) hist).1 e).1 = initEM ∧
    (∀ (spawnOk₂ : Bool) (hist₂ : List (ℚ × Bool)),
      runEM thr
          (emStart (emStop (runEM thr (emStart initEM spawnOk) hist).1 e).1 spawnOk₂) hist₂
        = runEM thr (emStart initEM spawnOk₂) hist₂) := by
  have hinv : EMInv (runEM thr (emStart initEM spawnOk) hist).1 :=
    runEM_inv thr _ hist (emStart_inv initEM spawnOk initEM_inv)
  have hmain : (emStop (runEM thr (emStart initEM spawnOk) hist).1 e).1 = initEM := by
    rcases hp : (runEM thr (emStart initEM spawnOk) hist).1.proc with _ | ⟨⟩
    · rw [emStop_proc_none _ e hp]
      show EMState.mk false none (runEM thr (emStart initEM spawnOk) hist).1.currentState
          [] none (runEM thr (emStart initEM spawnOk) hist).1.proc = initEM
      rw [hinv.1, hp]
      rfl
    · rcases e with _ | _
      · rw [emStop_proc_some_false _ hp] at hret
        simp at hret
      · rw [emStop_proc_some_true _ hp]
        show EMState.mk false none (runEM thr (emStart initEM spawnOk) hist).1.currentState
            [] none none = initEM
        rw [hinv.1]
        rfl
  refine ⟨by rw [hmain]; rfl, by rw [hmain]; rfl, hmain, ?_⟩
  intro spawnOk₂ hist₂
  rw [hmain]

/-- Witness for C3: one ingested reading, then a normally-returning `stop()`,
leaves exactly the freshly-constructed state. -/
theorem C3_reset_contract_witness :
    (emStop (runEM 2 (emStart initEM true) [(0, false)]).1 true).1 = initEM ∧
    (emStop (runEM 2 (emStart initEM true) [(0, false)]).1 true).2 = none := by
  have h := C3_reset_contract 2 true [(0, false)] true (by decide)
  exact ⟨h.2.2.1, by decide⟩

/-- C4, counterexample. With a started worker that does not exit within the
wait timeout, `stop()` raises `TimeoutExpired` to the caller, leaves the
process handle set, and never issues a force-kill — contradicting
"force-kills the worker ... always releases the process handle ... without
raising". -/
theorem C4_supervisor_teardown_counterexample :
    (emStop (emStart initEM true) false).2 = some .timeoutExpired ∧
    (emStop (emStart initEM true) false).1.proc ≠ none ∧
    ProcAction.kill ∉ stopProcActions (emStart initEM true) := by decide

/-- C4 (amended). `stop()` teardown: with no process handle it resets state
without touching any process and without raising; with a handle it issues
exactly `terminate` then a bounded `wait` (never `kill`); if the worker exits
within the timeout the handle is released and nothing is raised; if not,
`TimeoutExpired` propagates to the caller and the handle is retained. -/
theorem C4_supervisor_teardown_amended :
    (∀ (s : EMState) (e : Bool), s.proc = none →
        emStop s e = ({ s with isMonitoring := false, closedStart := none,
                               buffer := [], lastEmitted := none }, none) ∧
        stopProcActions s = []) ∧
    (∀ s : EMState, s.proc = some () →
        stopProcActions s = [.terminate, .wait 2] ∧
        ProcAction.kill ∉ stopProcActions s) ∧
    (∀ s : EMState, s.proc = some () →
        (emStop s true).2 = none ∧ (emStop s true).1.proc = none) ∧
    (∀ s : EMState, s.proc = some () →
        (emStop s false).2 = some .timeoutExpired ∧ (emStop s false).1.proc = some ()) := by
  refine ⟨?_, ?_, ?_, ?_⟩
  · intro s e hp
    exact ⟨emStop_proc_none s e hp, by unfold stopProcActions; rw [hp]⟩
  · intro s hp
    have hact : stopProcActions s = [.terminate, .wait 2] := by
      unfold stopProcActions; rw [hp]
    refine ⟨hact, ?_⟩
    rw [hact]
    decide
  · intro s hp
    rw [emStop_proc_some_true s hp]
    exact ⟨rfl, rfl⟩
  · intro s hp
    rw [emStop_proc_some_false s hp]
    exact ⟨rfl, hp⟩

/-- Witness for the amended C4: a started worker that exits in time is
terminated, waited for, released, with no kill and no exception. -/
theorem C4_supervisor_teardown_witness :
    (emStop (emStart initEM true) true).2 = none ∧
    (emStop (emStart initEM true) true).1.proc = none ∧
    ProcAction.kill ∉ stopProcActions (emStart initEM true) := by
  have h := C4_supervisor_teardown_amended
  exact ⟨(h.2.2.1 _ (by decide)).1, (h.2.2.1 _ (by decide)).2, (h.2.1 _ (by decide)).2⟩

/-- C9, counterexample. After a successful `start()` whose worker never exits
within the wait timeout, the second of two consecutive `stop()` calls raises
`TimeoutExpired` (as does the first) — contradicting "the second call does
not raise". -/
theorem C9_stop_idempotence_counterexample :
    (emStop (emStart initEM true) false).2 = some .timeoutExpired ∧
    (emStop (emStop (emStart initEM true) false).1 false).2 = some .timeoutExpired := by
  decide

/-- C9 (amended). `stop()` before any `start()` is a no-op and does not raise;
after any state, if a `stop()` returns normally with the worker exiting in
time, a second `stop()` leaves the state unchanged and does not raise; but
whenever a process handle is present and the worker does not exit within the
wait timeout, `stop()` raises `TimeoutExpired`. -/
theorem C9_stop_idempotence_amended :
    (∀ e : Bool, emStop initEM e = (initEM, none)) ∧
    (∀ (s : EMState) (e₂ : Bool),
        emStop (emStop s true).1 e₂ = ((emStop s true).1, none)) ∧
    (∀ s : EMState, s.proc ≠ none → (emStop s false).2 = some .timeoutExpired) := by
  refine ⟨?_, ?_, ?_⟩
  · intro e
    rw [emStop_proc_none initEM e rfl]
    rfl
  · intro s e₂
    rcases hp : s.proc with _ | ⟨⟩
    · rw [emStop_proc_none s true hp]
      dsimp only
      rw [emStop_proc_none
        { isMonitoring := false, closedStart := none, currentState := s.currentState,
          buffer := [], lastEmitted := none, proc := s.proc } e₂ hp]
    · rw [emStop_proc_some_true s hp]
      dsimp only
      rw [emStop_proc_none _ e₂ rfl]
  · intro s hp
    rcases hp2 : s.proc with _ | ⟨⟩
    · exact absurd hp2 hp
    · rw [emStop_proc_some_false s hp2]

/-- Witness for the amended C9: concrete fresh monitor, and a started monitor
stopped twice with the worker exiting in time. -/
theorem C9_stop_idempotence_witness :
    emStop initEM false = (initEM, none) ∧
    emStop (emStop (emStart initEM true) true).1 true
      = ((emStop (emStart initEM true) true).1, none) ∧
    (emStop (emStart initEM true) false).2 = some .timeoutExpired := by
  have h := C9_stop_idempotence_amended
  exact ⟨h.1 false, h.2.1 (emStart initEM true) true, h.2.2 _ (by decide)⟩

lemma browserTick_spec (s : WMState) (w : WinInfo) (tab : TabRes) :
    TickSpec s w (browserTick s w tab) := by
  unfold browserTick
  dsimp only
  split_ifs <;>
    first
      | exact ⟨rfl, Or.inl ⟨rfl, rfl, rfl⟩⟩
      | (rename_i hcond
         exact ⟨rfl, Or.inr ⟨_, rfl, rfl, rfl, Or.inr ⟨by simpa using hcond, rfl⟩⟩⟩)
      | (rename_i hcond
         exact ⟨rfl, Or.inr ⟨_, rfl, (by simpa using hcond : _ = s.prevState).symm, rfl,
           Or.inl ⟨(by simpa using hcond : _ = s.prevState), rfl⟩⟩⟩)

lemma nonBrowserTick_some_spec (s : WMState) (w : WinInfo) (tab : TabRes) :
    TickSpec s w (nonBrowserTick s (some w) tab) := by
  unfold nonBrowserTick
  dsimp only
  split_ifs <;>
    first
      | exact ⟨rfl, Or.inl ⟨rfl, rfl, rfl⟩⟩
      | (rename_i hcond
         exact ⟨rfl, Or.inr ⟨_, rfl, rfl, rfl, Or.inr ⟨by simpa using hcond, rfl⟩⟩⟩)
      | (rename_i hcond
         exact ⟨rfl, Or.inr ⟨_, rfl, (by simpa using hcond : _ = s.prevState).symm, rfl,
           Or.inl ⟨(by simpa using hcond : _ = s.prevState), rfl⟩⟩⟩)

lemma checkWindowChange_spec (s : WMState) (w : WinInfo) (tab : TabRes) :
    TickSpec s w (checkWindowChange s (some w) tab) := by
  show TickSpec s w (if isBrowserW w then browserTick s w tab else nonBrowserTick s (some w) tab)
  by_cases hb : isBrowserW w = true
  · rw [if_pos hb]; exact browserTick_spec s w tab
  · rw [if_neg hb]; exact nonBrowserTick_some_spec s w tab

/-- A tick on an absent window snapshot: if the stored handle is also null the
tick does nothing; otherwise it computes UNCLASSIFIED, then the log f-string
raises `AttributeError` on the absent snapshot, caught by the tick's outer
handler — no notification, no state update. -/
lemma nonBrowserTick_none (s : WMState) (tab : TabRes) :
    nonBrowserTick s none tab =
      if s.prevHandle = none then ⟨s, [], false, none⟩
      else ⟨s, [], true, some .UNCLASSIFIED⟩ := by
  rcases hp : s.prevHandle with _ | h
  · simp [nonBrowserTick, hp]
  · simp [nonBrowserTick, hp, classifyWindow]

/-- C5, counterexample. On a tick where the provider returns nothing while a
window handle is stored, the monitor computes UNCLASSIFIED, which differs
from the stored WHITELISTED label, yet publishes no transition — the caught
`AttributeError` aborts the tick before `_notify_subscribers`. -/
theorem C5_telemetry_failure_counterexample :
    (checkWindowChange ⟨.WHITELISTED, some 1, (none, none), true⟩ none none).computed
        = some .UNCLASSIFIED ∧
    WindowState.UNCLASSIFIED ≠ WindowState.WHITELISTED ∧
    (checkWindowChange ⟨.WHITELISTED, some 1, (none, none), true⟩ none none).events = [] ∧
    (checkWindowChange ⟨.WHITELISTED, some 1, (none, none), true⟩ none none).caught = true := by
  decide

/-- C5 (amended). On every tick where the provider returns nothing: no
transition is published and the stored state is not updated; if the stored
handle is null the handle comparison finds no change and the tick is a silent
no-op, otherwise the window is classified UNCLASSIFIED but an internally
caught `AttributeError` aborts the tick before notification; nothing raises
past the monitor boundary (the tick is a total function recording the caught
exception) and the timer keeps running. -/
theorem C5_telemetry_failure_amended (s : WMState) (tab : TabRes) :
    (checkWindowChange s none tab).events = [] ∧
    (checkWindowChange s none tab).state = s ∧
    (checkWindowChange s none tab).state.timerRunning = s.timerRunning ∧
    (s.prevHandle = none →
      (checkWindowChange s none tab).caught = false ∧
      (checkWindowChange s none tab).computed = none) ∧
    (s.prevHandle ≠ none →
      (checkWindowChange s none tab).caught = true ∧
      (checkWindowChange s none tab).computed = some .UNCLASSIFIED) := by
  have h : checkWindowChange s none tab = nonBrowserTick s none tab := rfl
  rw [h, nonBrowserTick_none]
  by_cases hp : s.prevHandle = none <;> simp [hp]

/-- Witness for the amended C5: concrete provider-nothing tick with a stored
handle — aborted, nothing published, state kept, timer untouched. -/
theorem C5_telemetry_failure_witness :
    (checkWindowChange ⟨.BLACKLISTED, some 7, (none, none), true⟩ none none).events = [] ∧
    (checkWindowChange ⟨.BLACKLISTED, some 7, (none, none), true⟩ none none).state
      = ⟨.BLACKLISTED, some 7, (none, none), true⟩ ∧
    (checkWindowChange ⟨.BLACKLISTED, some 7, (none, none), true⟩ none none).caught = true := by
  have h := C5_telemetry_failure_amended ⟨.BLACKLISTED, some 7, (none, none), true⟩ none
  exact ⟨h.1, h.2.1, (h.2.2.2.2 (by decide)).1⟩

/-- The majority-of-5 layer emits a transition on a push exactly when the new
buffer has a unanimity verdict differing from the last emitted state, and
never more than one per push. -/
lemma bufStep_iff (s : BufState) (b : Bool) :
    ((bufStep s b).2 ≠ [] ↔
      ∃ v, verdictOf (pushBuf s.buffer b) = some v ∧ s.lastEmitted ≠ some v) ∧
    (bufStep s b).2.length ≤ 1 := by
  unfold bufStep verdictOf
  dsimp only
  split_ifs <;> simp_all [bne_iff_ne]

/-- C6, counterexample. A tick whose provider returns nothing with a stored
handle computes UNCLASSIFIED, which differs from the previously emitted
BLACKLISTED, yet delivers no transition — so "a transition is delivered iff
the newly computed label differs from the previously emitted one" fails on
provider-nothing ticks. -/
theorem C6_change_detection_counterexample :
    (checkWindowChange ⟨.BLACKLISTED, some 2, (none, none), true⟩ none none).computed
        = some .UNCLASSIFIED ∧
    WindowState.UNCLASSIFIED ≠ WindowState.BLACKLISTED ∧
    (checkWindowChange ⟨.BLACKLISTED, some 2, (none, none), true⟩ none none).events = [] := by
  decide

/-- C6 (amended). Change detection: on every tick where the provider returned
a snapshot, a transition is published iff the tick computed a label differing
from the stored one, and at most one transition per tick; two consecutive
such ticks computing the same label publish exactly one transition when it
differs from the initially stored label and none otherwise; the eye-monitor
buffer layer emits a transition iff the new unanimity verdict differs from
the last emitted state, at most one per sample. -/
theorem C6_change_detection_amended :
    (∀ (s : WMState) (w : WinInfo) (tab : TabRes),
        ((checkWindowChange s (some w) tab).events ≠ [] ↔
          ∃ L, (checkWindowChange s (some w) tab).computed = some L ∧ L ≠ s.prevState) ∧
        (checkWindowChange s (some w) tab).events.length ≤ 1) ∧
    (∀ (s : WMState) (w₁ w₂ : WinInfo) (t₁ t₂ : TabRes) (L : WindowState),
        (checkWindowChange s (some w₁) t₁).computed = some L →
        (checkWindowChange (checkWindowChange s (some w₁) t₁).state (some w₂) t₂).computed
          = some L →
        ((checkWindowChange s (some w₁) t₁).events ++
         (checkWindowChange (checkWindowChange s (some w₁) t₁).state (some w₂) t₂).events).length
          = if L = s.prevState then 0 else 1) ∧
    (∀ (s : BufState) (b : Bool),
        ((bufStep s b).2 ≠ [] ↔
          ∃ v, verdictOf (pushBuf s.buffer b) = some v ∧ s.lastEmitted ≠ some v) ∧
        (bufStep s b).2.length ≤ 1) := by
  refine ⟨?_, ?_, fun s b => bufStep_iff s b⟩
  · intro s w tab
    obtain ⟨_, hdisj⟩ := checkWindowChange_spec s w tab
    rcases hdisj with ⟨hcomp, hev, _⟩ | ⟨L, hcomp, _, _, hcase⟩
    · constructor
      · simp [hev, hcomp]
      · simp [hev]
    · rcases hcase with ⟨heq, hev⟩ | ⟨hne, hev⟩
      · constructor
        · simp [hev, hcomp, heq]
        · simp [hev]
      · constructor
        · simp [hev, hcomp, hne]
        · simp [hev]
  · intro s w₁ w₂ t₁ t₂ L h₁ h₂
    obtain ⟨_, hd₁⟩ := checkWindowChange_spec s w₁ t₁
    obtain ⟨_, hd₂⟩ :=
      checkWindowChange_spec (checkWindowChange s (some w₁) t₁).state w₂ t₂
    rcases hd₁ with ⟨hc, _, _⟩ | ⟨L₁, hcomp₁, hprev₁, _, hcase₁⟩
    · rw [hc] at h₁; exact Option.noConfusion h₁
    · have hL₁ : L₁ = L := by
        have := hcomp₁.symm.trans h₁
        exact Option.some.inj this
      subst hL₁
      rcases hd₂ with ⟨hc₂, _, _⟩ | ⟨L₂, hcomp₂, _, _, hcase₂⟩
      · rw [hc₂] at h₂; exact Option.noConfusion h₂
      · have hL₂ : L₂ = L₁ := by
          have := hcomp₂.symm.trans h₂
          exact Option.some.inj this
        subst hL₂
        have hev₂ : (checkWindowChange (checkWindowChange s (some w₁) t₁).state
            (some w₂) t₂).events = [] := by
          rcases hcase₂ with ⟨_, hev₂⟩ | ⟨hne₂, _⟩
          · exact hev₂
          · exact absurd hprev₁.symm hne₂
        rcases hcase₁ with ⟨heq, hev₁⟩ | ⟨hne, hev₁⟩
        · simp [hev₁, hev₂, heq]
        · simp [hev₁, hev₂, hne]

/-- Witness for the amended C6: two concrete non-browser ticks both computing
UNCLASSIFIED after a stored WHITELISTED label publish exactly one transition
in total. -/
theorem C6_change_detection_witness :
    ((checkWindowChange ⟨.WHITELISTED, some 0, (none, none), true⟩
        (some ⟨1, chars "Notepad", chars "X", chars "notepad.exe"⟩)
        (some (none, none))).events ++
     (checkWindowChange
        (checkWindowChange ⟨.WHITELISTED, some 0, (none, none), true⟩
          (some ⟨1, chars "Notepad", chars "X", chars "notepad.exe"⟩)
          (some (none, none))).state
        (some ⟨2, chars "Untitled", chars "X", chars "notepad.exe"⟩)
        (some (none, none))).events).length = 1 := by
  have h := C6_change_detection_amended
  have h2 := h.2.1 ⟨.WHITELISTED, some 0, (none, none), true⟩
    ⟨1, chars "Notepad", chars "X", chars "notepad.exe"⟩
    ⟨2, chars "Untitled", chars "X", chars "notepad.exe"⟩
    (some (none, none)) (some (none, none)) .UNCLASSIFIED (by decide) (by decide)
  simpa using h2

/-- C7. End-to-end classification: the reddit tab is BLACKLISTED (whatever the
claim's title says), every URL starting `https://docs.google.com/` is
WHITELISTED for any title, and a non-browser "Notepad" window with no tab and
no keyword match is UNCLASSIFIED. -/
theorem C7_end_to_end_classification :
    classify (some (chars "https://reddit.com/r/foo")) (some (chars "funny meme"))
        = .blacklist ∧
    mapLabel (classify (some (chars "https://reddit.com/r/foo")) (some (chars "funny meme")))
        = .BLACKLISTED ∧
    (∀ (rest : List Char) (t : Option (List Char)),
        classify (some (chars "https://docs.google.com/" ++ rest)) t = .whitelist ∧
        mapLabel (classify (some (chars "https://docs.google.com/" ++ rest)) t)
          = .WHITELISTED) ∧
    (∀ (h : Nat) (cn : List Char),
        classifyWindow (some ⟨h, chars "Notepad", cn, chars "notepad.exe"⟩)
            (some (none, none)) = .UNCLASSIFIED) := by
  refine ⟨by decide, by decide, ?_, ?_⟩
  · intro rest t
    exact ⟨rfl, rfl⟩
  · intro h cn
    rfl

/-- If `suf` is a suffix of the host and is suffix-incomparable with every
listed domain (and no listed domain has it as a suffix), the host matches no
listed domain. -/
lemma hostIn_eq_false_of_sep (host suf : List Char) (ds : List (List Char))
    (hsuf : suf <:+ host)
    (hsep : ∀ d ∈ ds, ¬(('.' :: d) <:+ suf) ∧ ¬(suf <:+ ('.' :: d)) ∧ ¬(suf <:+ d)) :
    hostIn host ds = false := by
  rw [hostIn, List.any_eq_false]
  intro d hd
  obtain ⟨h1, h2, h3⟩ := hsep d hd
  simp only [Bool.or_eq_true, beq_iff_eq, List.isSuffixOf_iff_suffix]
  rintro (rfl | hdsuf)
  · exact h3 hsuf
  · rcases List.suffix_or_suffix_of_suffix hdsuf hsuf with h | h
    · exact h1 h
    · exact h2 h

/-- No YouTube host (the exact domain or any subdomain) matches the whitelist
domain set, so the whitelist rule preceding the YouTube rule never fires. -/
lemma isYoutube_not_whitelist (h : List Char) (hy : isYoutubeHost h = true) :
    hostIn h WHITELIST_DOMAINS = false := by
  rw [isYoutubeHost, Bool.or_eq_true, beq_iff_eq, List.isSuffixOf_iff_suffix] at hy
  rcases hy with rfl | hsuf
  · decide
  · exact hostIn_eq_false_of_sep h (chars ".youtube.com") _ hsuf (by decide)

lemma isYoutube_ne_nil (h : List Char) (hy : isYoutubeHost h = true) :
    h.isEmpty = false := by
  rw [isYoutubeHost, Bool.or_eq_true, beq_iff_eq, List.isSuffixOf_iff_suffix] at hy
  rcases hy with rfl | hsuf
  · rfl
  · obtain ⟨pre, hpre⟩ := hsuf
    rw [← hpre]
    cases pre <;> rfl

/-- C8. YouTube special case: for every URL whose parsed host is youtube.com
or a subdomain of it, the whitelist domain set never matches (so the domain
sets never decide), and the label is exactly "whitelist when the title has a
work keyword, blacklist otherwise" — including the ambiguous no-keyword case. -/
theorem C8_youtube_special_case (url : List Char) (title : Option (List Char))
    (hy : isYoutubeHost (hostOf (some url)) = true) :
    hostIn (hostOf (some url)) WHITELIST_DOMAINS = false ∧
    classify (some url) title =
      (if anyKw (pyStrip (title.getD [])) WORK_TITLE_KEYWORDS then .whitelist
       else .blacklist) := by
  have hwl := isYoutube_not_whitelist _ hy
  have hne := isYoutube_ne_nil _ hy
  refine ⟨hwl, ?_⟩
  unfold classify
  dsimp only
  rw [hne, hwl, hy]
  simp only [Bool.not_false, Bool.and_false, Bool.and_true, Bool.false_eq_true, if_false,
    if_true]
  by_cases hw : anyKw (pyStrip (title.getD [])) WORK_TITLE_KEYWORDS = true
  · simp [hw]
  · simp [hw]

/-- Witness for C8: a www.youtube.com watch URL is recognized as a YouTube
host; with a no-keyword title it is blacklisted, with a work-keyword title it
is whitelisted. -/
theorem C8_youtube_special_case_witness :
    isYoutubeHost (hostOf (some (chars "https://www.youtube.com/watch?v=abc"))) = true ∧
    classify (some (chars "https://www.youtube.com/watch?v=abc"))
        (some (chars "cat video compilation")) = .blacklist ∧
    classify (some (chars "https://www.youtube.com/watch?v=abc"))
        (some (chars "Lecture 12 intro")) = .whitelist := by
  refine ⟨by decide, ?_, ?_⟩
  · have h := C8_youtube_special_case (chars "https://www.youtube.com/watch?v=abc")
      (some (chars "cat video compilation")) (by decide)
    rw [h.2]
    decide
  · have h := C8_youtube_special_case (chars "https://www.youtube.com/watch?v=abc")
      (some (chars "Lecture 12 intro")) (by decide)
    rw [h.2]
    decide

/-- C10, counterexample. `docs.google.com` is a proper subdomain of the listed
domain `google.com` (a search-engine entry), yet with an empty title the
subdomain classifies whitelist while its listed parent classifies
unclassified — refuting "any proper subdomain classifies the same as its
listed parent domain". -/
theorem C10_host_matching_counterexample :
    chars "google.com" ∈ SEARCH_ENGINE_DOMAINS ∧
    ('.' :: chars "google.com").isSuffixOf (chars "docs.google.com") = true ∧
    hostOf (some (chars "https://docs.google.com/")) = chars "docs.google.com" ∧
    hostOf (some (chars "https://google.com/")) = chars "google.com" ∧
    classify (some (chars "https://docs.google.com/")) (some []) = .whitelist ∧
    classify (some (chars "https://google.com/")) (some []) = .unclassified := by
  decide

/-- C10 (amended). Host matching semantics: `classify` lowercases the parsed
host and strips one leading `www.`; a host matches a domain set exactly when
it equals a listed domain or ends with `"." + domain`; a proper subdomain
hence matches every set its listed parent matches and classifies the same as
its parent provided no earlier-precedence rule matches the subdomain itself
(e.g. old.reddit.com classifies like reddit.com for every title); look-alike
hosts such as notreddit.com match no domain set. -/
theorem C10_host_matching_amended :
    (∀ (host : List Char) (ds : List (List Char)),
        hostIn host ds = true ↔ ∃ d ∈ ds, host = d ∨ ('.' :: d) <:+ host) ∧
    hostOf (some (chars "HTTPS://WWW.Reddit.Com/x")) = chars "reddit.com" ∧
    (∀ t : Option (List Char),
        classify (some (chars "https://old.reddit.com/x")) t
          = classify (some (chars "https://reddit.com/x")) t ∧
        classify (some (chars "https://old.reddit.com/x")) t = .blacklist) ∧
    hostIn (chars "notreddit.com") WHITELIST_DOMAINS = false ∧
    hostIn (chars "notreddit.com") BLACKLIST_DOMAINS = false ∧
    hostIn (chars "notreddit.com") SEARCH_ENGINE_DOMAINS = false := by
  refine ⟨?_, by decide, fun t => ⟨rfl, rfl⟩, by decide, by decide, by decide⟩
  intro host ds
  simp [hostIn, List.any_eq_true, Bool.or_eq_true, beq_iff_eq, List.isSuffixOf_iff_suffix]
